import Mathlib

/-!
Module chaos / network / work_service.

A shallow embedding of `work_service_t` (src/chaos/network/work_service.cpp):
the descriptor-indexed connection table `m_conn_vct`, the validated lookup
`get_conn`, the worker-thread operations `sync_add_connection_i`,
`sync_del_connection_i`, `sync_close_all_conn_i`, and the thin posting
wrappers around them.

Conventions of the embedding

* A `conn_ptr_t` is a pointer to a `connection_t`.  A non-null pointer is
  a value of `connection_t` below: the address of the object together with
  the values its accessors return.  `NULL` is `none`.
* Every call into a collaborator (logging, `delete`, the I/O multiplexer,
  `connection_t::async_close`, `post`, the heartbeat tracker, the base
  `task_service_t`) is recorded, in program order, in the field `trace`.
* `m_conn_vct[i]` with `i` not below `size()` is undefined behaviour in C++.
  The embedding stops there and reports `fault_t.out_of_range` together
  with the state reached at the access.
-/

namespace chaos.network

/-- The two fields of `struct timeval` that the code compares. -/
structure timeval where
  tv_sec : Int
  tv_usec : Int
deriving DecidableEq, Repr

/-- The fields of `conn_id_t` read in work_service.cpp.  `fd_t` is declared
outside the file; descriptors are non-negative, so `socket` is a `Nat`. -/
structure conn_id_t where
  socket : Nat
  timestamp : timeval
deriving DecidableEq, Repr

/-- A connection object as work_service.cpp sees it: its address and the
values of the four accessors the file calls on it. -/
structure connection_t where
  addr : Nat
  native_socket : Nat
  get_timestamp : timeval
  get_conn_id : conn_id_t
  get_service_ptr : Nat
deriving DecidableEq, Repr

/-- A `conn_ptr_t`: `none` is `NULL`. -/
abbrev conn_ptr_t := Option connection_t

/-- Event kinds passed to `register_io_event`. -/
inductive io_flag_t where
  | READ_EVENT_FLAG
  | ERROR_EVENT_FLAG
deriving DecidableEq, Repr

/-- The optional third argument of `connection_t::async_close`. -/
inductive close_event_t where
  | EV_TIMEOUT_CLOSED
deriving DecidableEq, Repr

/-- The member functions that work_service.cpp binds and posts. -/
inductive task_t where
  | sync_close_all_conn_i
  | sync_add_connection_i (conn_ptr_ : connection_t)
  | sync_del_connection_i (conn_id_ : conn_id_t)
deriving DecidableEq, Repr

/-- Calls into collaborators, as they appear in work_service.cpp. -/
inductive event_t where
  | LOGWARN (msg : String)
  | SAFE_DELETE (conn_ptr : connection_t)
  | register_io_event (service_ptr : Nat) (fd : Nat) (flag : io_flag_t)
      (arg : connection_t) (persist : Option Bool)
  | async_close (conn_id : conn_id_t) (is_del_from_hb : Bool)
      (ev : Option close_event_t)
  | post (task : task_t)
  | heart_beat_stop
  | task_service_stop
deriving DecidableEq, Repr

/-- The state of a `work_service_t` that the file reads or writes. -/
structure work_service_t where
  m_conn_vct : List conn_ptr_t
  m_enable_conn_heart_beat : Bool
  is_recv_stop_signal : Bool
  trace : List event_t
deriving DecidableEq, Repr

/-- Undefined behaviour reached by the code. -/
inductive fault_t where
  | out_of_range (index : Nat) (size : Nat)
deriving DecidableEq, Repr

/-- Append one collaborator call to the trace. -/
def work_service_t.emit (s : work_service_t) (e : event_t) : work_service_t :=
  { s with trace := s.trace ++ [e] }

/-- `std::vector::resize(n)` with value-initialised (`NULL`) new elements. -/
def vector_resize (v : List conn_ptr_t) (n : Nat) : List conn_ptr_t :=
  if n ≤ v.length then v.take n else v ++ List.replicate (n - v.length) none

/-- Constructor, lines 29-35.  `DEFAULT_CONN_VCT_SIZE` is defined outside
the file and is a parameter here. -/
def work_service_t.ctor (DEFAULT_CONN_VCT_SIZE : Nat) : work_service_t :=
  { m_conn_vct := vector_resize [] DEFAULT_CONN_VCT_SIZE
    m_enable_conn_heart_beat := false
    is_recv_stop_signal := false
    trace := [] }

/-- Lines 114-140. -/
def get_conn (s : work_service_t) (conn_id_ : conn_id_t) :
    work_service_t × conn_ptr_t :=
  let peer_socket := conn_id_.socket
  if peer_socket ≥ s.m_conn_vct.length then
    (s.emit (.LOGWARN "work_service_t::get_conn fd is too big, return."), none)
  else
    match s.m_conn_vct[peer_socket]? with
    | some (some conn_ptr) =>
      if conn_id_.timestamp.tv_sec ≠ conn_ptr.get_timestamp.tv_sec
          ∨ conn_id_.timestamp.tv_usec ≠ conn_ptr.get_timestamp.tv_usec then
        (s.emit (.LOGWARN
          "work_service_t::get_conn connection timestamp error, return. arg-[fd:%d]"),
          none)
      else
        (s, some conn_ptr)
    | _ => (s, none)

/-- Lines 143-156: the loop over `m_conn_vct`, from the iterator position
whose remaining elements are `rest`. -/
def sync_close_all_conn_i_loop (s : work_service_t) :
    List conn_ptr_t → work_service_t
  | [] => s
  | some conn_ptr :: rest =>
    sync_close_all_conn_i_loop
      (s.emit (.async_close conn_ptr.get_conn_id false none)) rest
  | none :: rest => sync_close_all_conn_i_loop s rest

/-- Lines 143-156. -/
def sync_close_all_conn_i (s : work_service_t) : work_service_t × Int :=
  (sync_close_all_conn_i_loop s s.m_conn_vct, 0)

/-- Lines 180-206 of `sync_add_connection_i`: the slot access, the eviction
of a present occupant, the store and the two event registrations. -/
def sync_add_connection_i_store (s : work_service_t) (conn_ptr_ : connection_t) :
    work_service_t × Except fault_t Int :=
  let service_ptr := conn_ptr_.get_service_ptr
  let peer_socket := conn_ptr_.native_socket
  match s.m_conn_vct[peer_socket]? with
  | none => (s, .error (.out_of_range peer_socket s.m_conn_vct.length))
  | some conn_ptr =>
    let s1 :=
      match conn_ptr with
      | some old =>
        let s0 := s.emit (.LOGWARN
          "work_service_t::sync_add_connection_i fd conflict arg-[fd:%d] return.")
        { s0.emit (.SAFE_DELETE old) with
          m_conn_vct := s0.m_conn_vct.set peer_socket none }
      | none => s
    let s2 := { s1 with m_conn_vct := s1.m_conn_vct.set peer_socket (some conn_ptr_) }
    let s3 := s2.emit
      (.register_io_event service_ptr peer_socket .READ_EVENT_FLAG conn_ptr_ (some true))
    let s4 := s3.emit
      (.register_io_event service_ptr peer_socket .ERROR_EVENT_FLAG conn_ptr_ none)
    (s4, .ok 0)

/-- Lines 158-207. -/
def sync_add_connection_i (s : work_service_t) (conn_ptr_ : connection_t) :
    work_service_t × Except fault_t Int :=
  if s.is_recv_stop_signal then
    (s.emit (.LOGWARN
      "work_service_t::sync_add_connection_i has recv stop signal, return"),
      .ok (-1))
  else
    let peer_socket := conn_ptr_.native_socket
    if peer_socket ≥ s.m_conn_vct.length then
      let s1 := { s with m_conn_vct := vector_resize s.m_conn_vct peer_socket }
      if s1.m_conn_vct.length ≠ peer_socket then
        (s1.emit (.LOGWARN
          "work_service_t::sync_add_connection_i resize m_conn_vct failed arg-[fd:%d] return."),
          .ok (-1))
      else
        sync_add_connection_i_store s1 conn_ptr_
    else
      sync_add_connection_i_store s conn_ptr_

/-- Lines 209-241. -/
def sync_del_connection_i (s : work_service_t) (conn_id_ : conn_id_t) :
    work_service_t × Int :=
  let peer_socket := conn_id_.socket
  if peer_socket ≥ s.m_conn_vct.length then
    (s.emit (.LOGWARN
      "work_service_t::sync_del_connection_i fd is too big, return. arg-[fd:%d]"),
      -1)
  else
    match s.m_conn_vct[peer_socket]? with
    | some (some conn_ptr) =>
      if conn_id_.timestamp.tv_sec ≠ conn_ptr.get_timestamp.tv_sec
          ∨ conn_id_.timestamp.tv_usec ≠ conn_ptr.get_timestamp.tv_usec then
        (s.emit (.LOGWARN
          "work_service_t::sync_del_connection_i connection timestamp error, return. arg-[fd:%d]"),
          -1)
      else
        ({ s.emit (.SAFE_DELETE conn_ptr) with
            m_conn_vct := s.m_conn_vct.set peer_socket none }, 0)
    | _ =>
      (s.emit (.LOGWARN
        "work_service_t::sync_del_connection_i the connection not found, return. arg-[fd:%d]"),
        -1)

/-- Line 41-45: the heartbeat tracker's timeout callback. -/
def conn_timedout_callback (s : work_service_t) (conn_id_ : conn_id_t) :
    work_service_t :=
  s.emit (.async_close conn_id_ false (some .EV_TIMEOUT_CLOSED))

/-- Lines 65-79. -/
def stop (s : work_service_t) : work_service_t × Int :=
  let s1 := s.emit (.post .sync_close_all_conn_i)
  let s2 :=
    if s1.m_enable_conn_heart_beat then
      { s1.emit .heart_beat_stop with m_enable_conn_heart_beat := false }
    else s1
  let s3 := s2.emit .task_service_stop
  (s3, 0)

/-- Lines 82-87. -/
def async_add_connection (s : work_service_t) (conn_ptr_ : connection_t) :
    work_service_t × Int :=
  (s.emit (.post (.sync_add_connection_i conn_ptr_)), 0)

/-- Lines 90-96. -/
def async_del_connection (s : work_service_t) (conn_id_ : conn_id_t) :
    work_service_t × Int :=
  (s.emit (.post (.sync_del_connection_i conn_id_)), 0)

/-- The operations of the registry that run on the worker thread. -/
inductive op_t where
  | insertion (conn_ptr_ : connection_t)
  | removal (conn_id_ : conn_id_t)
  | lookup (conn_id_ : conn_id_t)
  | close_all
deriving DecidableEq, Repr

/-- One operation; the second component is the undefined behaviour it ran
into, if any. -/
def step (s : work_service_t) : op_t → work_service_t × Option fault_t
  | .insertion conn_ptr_ =>
    match sync_add_connection_i s conn_ptr_ with
    | (s1, .ok _) => (s1, none)
    | (s1, .error f) => (s1, some f)
  | .removal conn_id_ => ((sync_del_connection_i s conn_id_).1, none)
  | .lookup conn_id_ => ((get_conn s conn_id_).1, none)
  | .close_all => ((sync_close_all_conn_i s).1, none)

/-- A sequence of operations, executed in order up to the first undefined
behaviour; the state is the one reached there. -/
def run (s : work_service_t) : List op_t → work_service_t × Option fault_t
  | [] => (s, none)
  | o :: os =>
    match step s o with
    | (s1, none) => run s1 os
    | (s1, some f) => (s1, some f)

/-- The connections deleted so far, oldest first. -/
def destroyed (s : work_service_t) : List connection_t :=
  s.trace.filterMap fun e =>
    match e with
    | .SAFE_DELETE conn_ptr => some conn_ptr
    | _ => none

/-- The I/O event registrations made so far, oldest first. -/
def io_events (s : work_service_t) : List event_t :=
  s.trace.filter fun e =>
    match e with
    | .register_io_event _ _ _ _ _ => true
    | _ => false

/-- The occupant of slot `conn_id_.socket` of table `v` whose timestamp is
the one of `conn_id_`, if there is one.  Used to state what lookup and
removal do. -/
def matching_occupant (v : List conn_ptr_t) (conn_id_ : conn_id_t) : conn_ptr_t :=
  match v[conn_id_.socket]? with
  | some (some c) =>
    if conn_id_.timestamp.tv_sec = c.get_timestamp.tv_sec
        ∧ conn_id_.timestamp.tv_usec = c.get_timestamp.tv_usec then some c
    else none
  | _ => none

/-- The call that lines 147-152 make for one element of the table: none for
`NULL`, and for an occupant the `async_close` of its `get_conn_id()` with
second argument `false` and the third argument left out. -/
def close_all_call (p : conn_ptr_t) : Option event_t :=
  p.map fun c => event_t.async_close c.get_conn_id false none

/-- A connection object at address `addr` with descriptor `fd`, created at
`(sec, usec)`, whose identity carries the same descriptor and timestamp. -/
def mk_connection (addr fd : Nat) (sec usec : Int) : connection_t :=
  { addr := addr
    native_socket := fd
    get_timestamp := { tv_sec := sec, tv_usec := usec }
    get_conn_id := { socket := fd, timestamp := { tv_sec := sec, tv_usec := usec } }
    get_service_ptr := 1 }

/-- A service whose table is the given one, with the given stop flag and
nothing traced yet. -/
def mk_service (v : List conn_ptr_t) (stopping : Bool) : work_service_t :=
  { m_conn_vct := v
    m_enable_conn_heart_beat := false
    is_recv_stop_signal := stopping
    trace := [] }

/-! ## Lookup -/

/-- The table is not written by `get_conn`. -/
theorem get_conn_vct (s : work_service_t) (conn_id_ : conn_id_t) :
    (get_conn s conn_id_).1.m_conn_vct = s.m_conn_vct := by
  unfold get_conn
  simp only [work_service_t.emit]
  split
  · rfl
  · split
    · split <;> rfl
    · rfl

/-- What `get_conn` returns, as a function of the table alone. -/
theorem get_conn_result (s : work_service_t) (conn_id_ : conn_id_t) :
    (get_conn s conn_id_).2 = matching_occupant s.m_conn_vct conn_id_ := by
  unfold get_conn matching_occupant
  by_cases hb : conn_id_.socket ≥ s.m_conn_vct.length
  · have hnone : s.m_conn_vct[conn_id_.socket]? = none :=
      List.getElem?_eq_none hb
    simp [hb, hnone]
  · simp only [hb, if_false]
    cases hslot : s.m_conn_vct[conn_id_.socket]? with
    | none => rfl
    | some p =>
      cases p with
      | none => rfl
      | some c =>
        by_cases h1 : conn_id_.timestamp.tv_sec = c.get_timestamp.tv_sec
        · by_cases h2 : conn_id_.timestamp.tv_usec = c.get_timestamp.tv_usec
          · simp [h1, h2]
          · simp [h1, h2]
        · simp [h1]

/-- Claim C1: `get_conn` returns connection `c` exactly when the descriptor
is below the table size, the slot at the descriptor holds `c`, and the
timestamp of `c` equals the requested one in seconds and in microseconds;
it returns `NULL` exactly when no connection meets these conditions. -/
theorem get_conn_spec (s : work_service_t) (conn_id_ : conn_id_t) :
    (∀ c : connection_t,
      (get_conn s conn_id_).2 = some c ↔
        (conn_id_.socket < s.m_conn_vct.length
          ∧ s.m_conn_vct[conn_id_.socket]? = some (some c)
          ∧ c.get_timestamp.tv_sec = conn_id_.timestamp.tv_sec
          ∧ c.get_timestamp.tv_usec = conn_id_.timestamp.tv_usec))
    ∧ ((get_conn s conn_id_).2 = none ↔
        ¬ ∃ c : connection_t,
          conn_id_.socket < s.m_conn_vct.length
          ∧ s.m_conn_vct[conn_id_.socket]? = some (some c)
          ∧ c.get_timestamp.tv_sec = conn_id_.timestamp.tv_sec
          ∧ c.get_timestamp.tv_usec = conn_id_.timestamp.tv_usec) := by
  rw [get_conn_result]
  unfold matching_occupant
  cases hslot : s.m_conn_vct[conn_id_.socket]? with
  | none => simp
  | some p =>
    have hlt : conn_id_.socket < s.m_conn_vct.length := by
      by_contra hge
      rw [List.getElem?_eq_none (Nat.le_of_not_lt hge)] at hslot
      cases hslot
    cases p with
    | none => simp
    | some c0 =>
      have key : ∀ c : connection_t, (some (some c0) : Option conn_ptr_t) = some (some c)
          ↔ c0 = c := by
        intro c
        simp
      by_cases ht : conn_id_.timestamp.tv_sec = c0.get_timestamp.tv_sec
          ∧ conn_id_.timestamp.tv_usec = c0.get_timestamp.tv_usec
      · dsimp only
        rw [if_pos ht]
        refine ⟨fun c => ⟨fun h => ?_, fun h => ?_⟩, ⟨fun h => (by cases h), fun h => ?_⟩⟩
        · have hc : c0 = c := by simpa using h
          subst hc
          exact ⟨hlt, rfl, ht.1.symm, ht.2.symm⟩
        · have hc : c0 = c := (key c).1 h.2.1
          rw [hc]
        · exact absurd ⟨c0, hlt, rfl, ht.1.symm, ht.2.symm⟩ h
      · dsimp only
        rw [if_neg ht]
        refine ⟨fun c => ⟨fun h => (by cases h), fun h => ?_⟩, ⟨fun _ => ?_, fun _ => rfl⟩⟩
        · have hc : c0 = c := (key c).1 h.2.1
          subst hc
          exact absurd ⟨h.2.2.1.symm, h.2.2.2.symm⟩ ht
        · rintro ⟨c, -, h1, h2, h3⟩
          have hc : c0 = c := (key c).1 h1
          subst hc
          exact ht ⟨h2.symm, h3.symm⟩

/-! ## Removal -/

theorem matching_occupant_slot {v : List conn_ptr_t} {conn_id_ : conn_id_t}
    {c : connection_t} (h : matching_occupant v conn_id_ = some c) :
    v[conn_id_.socket]? = some (some c)
      ∧ conn_id_.timestamp.tv_sec = c.get_timestamp.tv_sec
      ∧ conn_id_.timestamp.tv_usec = c.get_timestamp.tv_usec := by
  unfold matching_occupant at h
  cases hslot : v[conn_id_.socket]? with
  | none => rw [hslot] at h; cases h
  | some p =>
    cases p with
    | none => rw [hslot] at h; cases h
    | some c0 =>
      rw [hslot] at h
      dsimp only at h
      by_cases ht : conn_id_.timestamp.tv_sec = c0.get_timestamp.tv_sec
          ∧ conn_id_.timestamp.tv_usec = c0.get_timestamp.tv_usec
      · rw [if_pos ht] at h
        have hc : c0 = c := by simpa using h
        subst hc
        exact ⟨rfl, ht.1, ht.2⟩
      · rw [if_neg ht] at h
        cases h

theorem matching_occupant_of_slot {v : List conn_ptr_t} {conn_id_ : conn_id_t}
    {c : connection_t} (hslot : v[conn_id_.socket]? = some (some c))
    (h1 : conn_id_.timestamp.tv_sec = c.get_timestamp.tv_sec)
    (h2 : conn_id_.timestamp.tv_usec = c.get_timestamp.tv_usec) :
    matching_occupant v conn_id_ = some c := by
  unfold matching_occupant
  rw [hslot]
  dsimp only
  rw [if_pos ⟨h1, h2⟩]

theorem matching_occupant_of_empty {v : List conn_ptr_t} {conn_id_ : conn_id_t}
    (hslot : v[conn_id_.socket]? = some none) :
    matching_occupant v conn_id_ = none := by
  unfold matching_occupant
  rw [hslot]

theorem matching_occupant_of_ge {v : List conn_ptr_t} {conn_id_ : conn_id_t}
    (hb : conn_id_.socket ≥ v.length) :
    matching_occupant v conn_id_ = none := by
  unfold matching_occupant
  rw [List.getElem?_eq_none hb]

theorem matching_occupant_of_differs {v : List conn_ptr_t} {conn_id_ : conn_id_t}
    {c : connection_t} (hslot : v[conn_id_.socket]? = some (some c))
    (hd : c.get_timestamp.tv_sec ≠ conn_id_.timestamp.tv_sec
      ∨ c.get_timestamp.tv_usec ≠ conn_id_.timestamp.tv_usec) :
    matching_occupant v conn_id_ = none := by
  unfold matching_occupant
  rw [hslot]
  dsimp only
  rw [if_neg]
  rintro ⟨h1, h2⟩
  rcases hd with hd | hd
  · exact hd h1.symm
  · exact hd h2.symm

/-- A removal whose identity matches the occupant deletes it and clears
the slot. -/
theorem sync_del_connection_i_hit {s : work_service_t} {conn_id_ : conn_id_t}
    {c : connection_t} (h : matching_occupant s.m_conn_vct conn_id_ = some c) :
    sync_del_connection_i s conn_id_ =
      ({ s.emit (.SAFE_DELETE c) with
          m_conn_vct := s.m_conn_vct.set conn_id_.socket none }, 0) := by
  obtain ⟨hslot, h1, h2⟩ := matching_occupant_slot h
  have hlt : ¬ conn_id_.socket ≥ s.m_conn_vct.length := by
    intro hge
    rw [List.getElem?_eq_none hge] at hslot
    cases hslot
  unfold sync_del_connection_i
  simp only [hlt, if_false, hslot]
  rw [if_neg]
  simp [h1, h2]

/-- A removal whose identity matches no occupant only logs a warning. -/
theorem sync_del_connection_i_miss {s : work_service_t} {conn_id_ : conn_id_t}
    (h : matching_occupant s.m_conn_vct conn_id_ = none) :
    ∃ msg : String, sync_del_connection_i s conn_id_ = (s.emit (.LOGWARN msg), -1) := by
  unfold sync_del_connection_i
  by_cases hb : conn_id_.socket ≥ s.m_conn_vct.length
  · simp only [hb, if_true]
    exact ⟨_, rfl⟩
  · simp only [hb, if_false]
    unfold matching_occupant at h
    cases hslot : s.m_conn_vct[conn_id_.socket]? with
    | none => exact ⟨_, rfl⟩
    | some p =>
      cases p with
      | none => exact ⟨_, rfl⟩
      | some c0 =>
        rw [hslot] at h
        dsimp only at h ⊢
        by_cases ht : conn_id_.timestamp.tv_sec = c0.get_timestamp.tv_sec
            ∧ conn_id_.timestamp.tv_usec = c0.get_timestamp.tv_usec
        · rw [if_pos ht] at h
          cases h
        · rw [if_pos]
          · exact ⟨_, rfl⟩
          · by_contra hno
            apply ht
            constructor
            · by_contra h1
              exact hno (Or.inl h1)
            · by_contra h2
              exact hno (Or.inr h2)

theorem destroyed_emit_LOGWARN (s : work_service_t) (msg : String) :
    destroyed (s.emit (.LOGWARN msg)) = destroyed s := by
  simp [destroyed, work_service_t.emit, List.filterMap_append]

theorem destroyed_emit_SAFE_DELETE (s : work_service_t) (c : connection_t) :
    destroyed (s.emit (.SAFE_DELETE c)) = destroyed s ++ [c] := by
  simp [destroyed, work_service_t.emit, List.filterMap_append]

/-- Claim C3: when the descriptor of the identity is not below the table
size, or the slot is empty, or the occupant's timestamp differs from the
identity's in seconds or in microseconds, `sync_del_connection_i` returns
-1, deletes no connection and leaves the table as it was. -/
theorem sync_del_connection_i_no_match (s : work_service_t) (conn_id_ : conn_id_t)
    (h : conn_id_.socket ≥ s.m_conn_vct.length
      ∨ s.m_conn_vct[conn_id_.socket]? = some none
      ∨ ∃ c : connection_t, s.m_conn_vct[conn_id_.socket]? = some (some c)
          ∧ (c.get_timestamp.tv_sec ≠ conn_id_.timestamp.tv_sec
            ∨ c.get_timestamp.tv_usec ≠ conn_id_.timestamp.tv_usec)) :
    (sync_del_connection_i s conn_id_).2 = -1
      ∧ destroyed (sync_del_connection_i s conn_id_).1 = destroyed s
      ∧ (sync_del_connection_i s conn_id_).1.m_conn_vct = s.m_conn_vct := by
  have hnone : matching_occupant s.m_conn_vct conn_id_ = none := by
    rcases h with hb | he | ⟨c, hslot, hd⟩
    · exact matching_occupant_of_ge hb
    · exact matching_occupant_of_empty he
    · exact matching_occupant_of_differs hslot hd
  obtain ⟨msg, hdel⟩ := sync_del_connection_i_miss hnone
  rw [hdel]
  exact ⟨rfl, destroyed_emit_LOGWARN s msg, rfl⟩

/-- Claim C4: when the descriptor of the identity is below the table size
and the slot holds a connection `c` with exactly the identity's timestamp,
`sync_del_connection_i` returns 0, deletes `c` and nothing else, leaves the
slot empty, leaves every other slot and the table size unchanged, and a
following `get_conn` with the same identity returns `NULL`. -/
theorem sync_del_connection_i_match (s : work_service_t) (conn_id_ : conn_id_t)
    (c : connection_t)
    (hb : conn_id_.socket < s.m_conn_vct.length)
    (hslot : s.m_conn_vct[conn_id_.socket]? = some (some c))
    (hsec : c.get_timestamp.tv_sec = conn_id_.timestamp.tv_sec)
    (husec : c.get_timestamp.tv_usec = conn_id_.timestamp.tv_usec) :
    (sync_del_connection_i s conn_id_).2 = 0
      ∧ destroyed (sync_del_connection_i s conn_id_).1 = destroyed s ++ [c]
      ∧ (sync_del_connection_i s conn_id_).1.m_conn_vct[conn_id_.socket]? = some none
      ∧ (∀ i : Nat, i ≠ conn_id_.socket →
          (sync_del_connection_i s conn_id_).1.m_conn_vct[i]? = s.m_conn_vct[i]?)
      ∧ (sync_del_connection_i s conn_id_).1.m_conn_vct.length = s.m_conn_vct.length
      ∧ (get_conn (sync_del_connection_i s conn_id_).1 conn_id_).2 = none := by
  have hm : matching_occupant s.m_conn_vct conn_id_ = some c :=
    matching_occupant_of_slot hslot hsec.symm husec.symm
  rw [sync_del_connection_i_hit hm]
  have hset : (s.m_conn_vct.set conn_id_.socket none)[conn_id_.socket]? = some none := by
    simp [List.getElem?_set, hb]
  refine ⟨rfl, ?_, hset, ?_, ?_, ?_⟩
  · exact destroyed_emit_SAFE_DELETE s c
  · intro i hi
    show (s.m_conn_vct.set conn_id_.socket none)[i]? = s.m_conn_vct[i]?
    simp [List.getElem?_set, Ne.symm hi]
  · show (s.m_conn_vct.set conn_id_.socket none).length = s.m_conn_vct.length
    simp
  · rw [get_conn_result]
    exact matching_occupant_of_empty hset

/-- Claim C5: two removals in a row with the same identity.  The second one
returns -1 and changes neither the table, nor the flags, nor the list of
deleted connections; both together delete at most one connection, and they
delete exactly the occupant when the first removal matched it. -/
theorem sync_del_connection_i_twice (s : work_service_t) (conn_id_ : conn_id_t) :
    (sync_del_connection_i (sync_del_connection_i s conn_id_).1 conn_id_).2 = -1
      ∧ (sync_del_connection_i (sync_del_connection_i s conn_id_).1 conn_id_).1.m_conn_vct
          = (sync_del_connection_i s conn_id_).1.m_conn_vct
      ∧ (sync_del_connection_i (sync_del_connection_i s conn_id_).1
            conn_id_).1.is_recv_stop_signal
          = (sync_del_connection_i s conn_id_).1.is_recv_stop_signal
      ∧ (sync_del_connection_i (sync_del_connection_i s conn_id_).1
            conn_id_).1.m_enable_conn_heart_beat
          = (sync_del_connection_i s conn_id_).1.m_enable_conn_heart_beat
      ∧ destroyed (sync_del_connection_i (sync_del_connection_i s conn_id_).1 conn_id_).1
          = destroyed (sync_del_connection_i s conn_id_).1
      ∧ (destroyed (sync_del_connection_i (sync_del_connection_i s conn_id_).1
            conn_id_).1).length ≤ (destroyed s).length + 1
      ∧ (∀ c : connection_t,
          (s.m_conn_vct[conn_id_.socket]? = some (some c)
            ∧ c.get_timestamp.tv_sec = conn_id_.timestamp.tv_sec
            ∧ c.get_timestamp.tv_usec = conn_id_.timestamp.tv_usec) →
          (sync_del_connection_i s conn_id_).2 = 0
            ∧ destroyed (sync_del_connection_i (sync_del_connection_i s conn_id_).1
                conn_id_).1 = destroyed s ++ [c]) := by
  have second : ∀ s1 : work_service_t, matching_occupant s1.m_conn_vct conn_id_ = none →
      (sync_del_connection_i s1 conn_id_).2 = -1
        ∧ (sync_del_connection_i s1 conn_id_).1.m_conn_vct = s1.m_conn_vct
        ∧ (sync_del_connection_i s1 conn_id_).1.is_recv_stop_signal = s1.is_recv_stop_signal
        ∧ (sync_del_connection_i s1 conn_id_).1.m_enable_conn_heart_beat
            = s1.m_enable_conn_heart_beat
        ∧ destroyed (sync_del_connection_i s1 conn_id_).1 = destroyed s1 := by
    intro s1 h1
    obtain ⟨msg, hdel⟩ := sync_del_connection_i_miss h1
    rw [hdel]
    exact ⟨rfl, rfl, rfl, rfl, destroyed_emit_LOGWARN s1 msg⟩
  cases hm : matching_occupant s.m_conn_vct conn_id_ with
  | none =>
    obtain ⟨msg, hdel⟩ := sync_del_connection_i_miss hm
    have h2 : matching_occupant (sync_del_connection_i s conn_id_).1.m_conn_vct conn_id_
        = none := by
      rw [hdel]
      exact hm
    obtain ⟨a, b, c1, d, e⟩ := second _ h2
    refine ⟨a, b, c1, d, e, ?_, ?_⟩
    · rw [e, hdel, destroyed_emit_LOGWARN]
      omega
    · rintro c ⟨hslot, hsec, husec⟩
      rw [matching_occupant_of_slot hslot hsec.symm husec.symm] at hm
      cases hm
  | some c0 =>
    obtain ⟨hslot0, -, -⟩ := matching_occupant_slot hm
    have hlt : conn_id_.socket < s.m_conn_vct.length := by
      by_contra hge
      rw [List.getElem?_eq_none (Nat.le_of_not_lt hge)] at hslot0
      cases hslot0
    have hdel := sync_del_connection_i_hit hm
    have h2 : matching_occupant (sync_del_connection_i s conn_id_).1.m_conn_vct conn_id_
        = none := by
      rw [hdel]
      apply matching_occupant_of_empty
      simp [List.getElem?_set, hlt]
    obtain ⟨a, b, c1, d, e⟩ := second _ h2
    have hd1 : destroyed (sync_del_connection_i s conn_id_).1 = destroyed s ++ [c0] := by
      rw [hdel]
      exact destroyed_emit_SAFE_DELETE s c0
    refine ⟨a, b, c1, d, e, ?_, ?_⟩
    · rw [e, hd1]
      simp
    · rintro c ⟨hslot, -, -⟩
      rw [hslot0] at hslot
      have hc : c0 = c := by simpa using hslot
      subst hc
      refine ⟨?_, ?_⟩
      · rw [hdel]
      · rw [e, hd1]

/-! ## Insertion -/

theorem vector_resize_length_of_le (v : List conn_ptr_t) (n : Nat) (h : v.length ≤ n) :
    (vector_resize v n).length = n := by
  unfold vector_resize
  split
  · rw [List.length_take]
    omega
  · rw [List.length_append, List.length_replicate]
    omega

theorem vector_resize_getElem?_of_lt (v : List conn_ptr_t) (n i : Nat)
    (h : v.length ≤ n) (hi : i < v.length) :
    (vector_resize v n)[i]? = v[i]? := by
  unfold vector_resize
  split
  · have hn : n = v.length := by omega
    rw [hn, List.take_length]
  · exact List.getElem?_append_left hi

theorem vector_resize_getElem?_of_ge (v : List conn_ptr_t) (n i : Nat)
    (h : v.length ≤ n) (hi : v.length ≤ i) (x : connection_t) :
    (vector_resize v n)[i]? ≠ some (some x) := by
  unfold vector_resize
  split
  · have hn : n = v.length := by omega
    rw [hn, List.take_length, List.getElem?_eq_none hi]
    simp
  · rw [List.getElem?_append_right hi]
    intro hx
    have hmem : (some x : conn_ptr_t) ∈ List.replicate (n - v.length) none :=
      List.getElem?_mem hx
    have := List.eq_of_mem_replicate hmem
    cases this

/-- With the stop flag set the insertion only logs a warning. -/
theorem sync_add_connection_i_stopped {s : work_service_t} (conn_ptr_ : connection_t)
    (h : s.is_recv_stop_signal = true) :
    ∃ msg : String,
      sync_add_connection_i s conn_ptr_ = (s.emit (.LOGWARN msg), .ok (-1)) := by
  unfold sync_add_connection_i
  rw [if_pos h]
  exact ⟨_, rfl⟩

/-- Without the stop flag and with the descriptor below the table size the
insertion is the store at lines 180-206. -/
theorem sync_add_connection_i_in_range {s : work_service_t} {conn_ptr_ : connection_t}
    (h : s.is_recv_stop_signal = false)
    (hb : conn_ptr_.native_socket < s.m_conn_vct.length) :
    sync_add_connection_i s conn_ptr_ = sync_add_connection_i_store s conn_ptr_ := by
  unfold sync_add_connection_i
  have hnb : ¬ conn_ptr_.native_socket ≥ s.m_conn_vct.length := Nat.not_le.mpr hb
  simp [h, hnb]

/-- Without the stop flag and with the descriptor not below the table size
the insertion resizes the table to the descriptor and then indexes it at
the descriptor, one past the last element. -/
theorem sync_add_connection_i_grow {s : work_service_t} {conn_ptr_ : connection_t}
    (h : s.is_recv_stop_signal = false)
    (hb : conn_ptr_.native_socket ≥ s.m_conn_vct.length) :
    sync_add_connection_i s conn_ptr_ =
      ({ s with m_conn_vct := vector_resize s.m_conn_vct conn_ptr_.native_socket },
        .error (.out_of_range conn_ptr_.native_socket conn_ptr_.native_socket)) := by
  have hlen := vector_resize_length_of_le s.m_conn_vct conn_ptr_.native_socket hb
  unfold sync_add_connection_i
  simp only [h, Bool.false_eq_true, if_false, hb, if_true, hlen, ne_eq, not_true_eq_false]
  unfold sync_add_connection_i_store
  have hnone : (vector_resize s.m_conn_vct conn_ptr_.native_socket)[conn_ptr_.native_socket]?
      = none := List.getElem?_eq_none (Nat.le_of_eq hlen)
  simp only [hnone, hlen]

/-- The store at lines 180-206 with the descriptor below the table size. -/
theorem sync_add_connection_i_store_in_range {s : work_service_t}
    {conn_ptr_ : connection_t}
    (hb : conn_ptr_.native_socket < s.m_conn_vct.length) :
    (sync_add_connection_i_store s conn_ptr_).2 = .ok 0
      ∧ (sync_add_connection_i_store s conn_ptr_).1.m_conn_vct
          = s.m_conn_vct.set conn_ptr_.native_socket (some conn_ptr_)
      ∧ (sync_add_connection_i_store s conn_ptr_).1.is_recv_stop_signal
          = s.is_recv_stop_signal
      ∧ (sync_add_connection_i_store s conn_ptr_).1.m_enable_conn_heart_beat
          = s.m_enable_conn_heart_beat := by
  unfold sync_add_connection_i_store
  obtain ⟨p, hp⟩ : ∃ p, s.m_conn_vct[conn_ptr_.native_socket]? = some p := by
    rw [List.getElem?_eq_getElem hb]
    exact ⟨_, rfl⟩
  dsimp only
  rw [hp]
  cases p with
  | none => exact ⟨rfl, rfl, rfl, rfl⟩
  | some old =>
    refine ⟨rfl, ?_, rfl, rfl⟩
    simp [work_service_t.emit]

theorem sync_close_all_conn_i_loop_vct (l : List conn_ptr_t) (s : work_service_t) :
    (sync_close_all_conn_i_loop s l).m_conn_vct = s.m_conn_vct := by
  induction l generalizing s with
  | nil => rfl
  | cons p rest ih =>
    cases p with
    | none => exact ih s
    | some c =>
      show (sync_close_all_conn_i_loop (s.emit _) rest).m_conn_vct = s.m_conn_vct
      rw [ih]
      rfl

theorem sync_del_connection_i_length (s : work_service_t) (conn_id_ : conn_id_t) :
    (sync_del_connection_i s conn_id_).1.m_conn_vct.length = s.m_conn_vct.length := by
  cases hm : matching_occupant s.m_conn_vct conn_id_ with
  | none =>
    obtain ⟨msg, hdel⟩ := sync_del_connection_i_miss hm
    rw [hdel]
    rfl
  | some c =>
    rw [sync_del_connection_i_hit hm]
    exact List.length_set _ _ _

theorem sync_add_connection_i_length_le (s : work_service_t) (conn_ptr_ : connection_t) :
    s.m_conn_vct.length ≤ (sync_add_connection_i s conn_ptr_).1.m_conn_vct.length := by
  cases hstop : s.is_recv_stop_signal with
  | true =>
    obtain ⟨msg, hadd⟩ := sync_add_connection_i_stopped conn_ptr_ hstop
    rw [hadd]
    exact Nat.le_refl _
  | false =>
    by_cases hb : conn_ptr_.native_socket < s.m_conn_vct.length
    · rw [sync_add_connection_i_in_range hstop hb,
        (sync_add_connection_i_store_in_range hb).2.1, List.length_set]
    · have hge : conn_ptr_.native_socket ≥ s.m_conn_vct.length := Nat.le_of_not_lt hb
      rw [sync_add_connection_i_grow hstop hge]
      show s.m_conn_vct.length ≤ (vector_resize s.m_conn_vct conn_ptr_.native_socket).length
      rw [vector_resize_length_of_le _ _ hge]
      exact hge

theorem step_insertion_fst (s : work_service_t) (c : connection_t) :
    (step s (.insertion c)).1 = (sync_add_connection_i s c).1 := by
  simp only [step]
  split <;> simp [*]

theorem run_cons_none {s s1 : work_service_t} {o : op_t} (os : List op_t)
    (h : step s o = (s1, none)) : run s (o :: os) = run s1 os := by
  simp only [run, h]

theorem run_cons_some {s s1 : work_service_t} {o : op_t} {f : fault_t} (os : List op_t)
    (h : step s o = (s1, some f)) : run s (o :: os) = (s1, some f) := by
  simp only [run, h]

theorem step_length_le (s : work_service_t) (o : op_t) :
    s.m_conn_vct.length ≤ (step s o).1.m_conn_vct.length := by
  cases o with
  | insertion c =>
    rw [step_insertion_fst]
    exact sync_add_connection_i_length_le s c
  | removal conn_id_ =>
    show s.m_conn_vct.length ≤ (sync_del_connection_i s conn_id_).1.m_conn_vct.length
    rw [sync_del_connection_i_length]
  | lookup conn_id_ =>
    show s.m_conn_vct.length ≤ (get_conn s conn_id_).1.m_conn_vct.length
    rw [get_conn_vct]
  | close_all =>
    show s.m_conn_vct.length ≤ (sync_close_all_conn_i_loop s s.m_conn_vct).m_conn_vct.length
    rw [sync_close_all_conn_i_loop_vct]

theorem run_length_le (ops : List op_t) (s : work_service_t) :
    s.m_conn_vct.length ≤ (run s ops).1.m_conn_vct.length := by
  induction ops generalizing s with
  | nil => exact Nat.le_refl _
  | cons o os ih =>
    have h := step_length_le s o
    rcases hstep : step s o with ⟨s1, f⟩
    rw [hstep] at h
    cases f with
    | none =>
      rw [run_cons_none os hstep]
      exact Nat.le_trans h (ih s1)
    | some f =>
      rw [run_cons_some os hstep]
      exact h

theorem run_append (ops1 ops2 : List op_t) (s : work_service_t) :
    run s (ops1 ++ ops2) =
      match run s ops1 with
      | (s1, none) => run s1 ops2
      | (s1, some f) => (s1, some f) := by
  induction ops1 generalizing s with
  | nil => rfl
  | cons o os ih =>
    show run s (o :: (os ++ ops2)) = _
    rcases hstep : step s o with ⟨s1, f⟩
    cases f with
    | none =>
      rw [run_cons_none _ hstep, run_cons_none _ hstep]
      exact ih s1
    | some f =>
      rw [run_cons_some _ hstep, run_cons_some _ hstep]

theorem io_events_emit_LOGWARN (s : work_service_t) (msg : String) :
    io_events (s.emit (.LOGWARN msg)) = io_events s := by
  simp [io_events, work_service_t.emit, List.filter_append]

/-- After an insertion that is neither refused nor grows the table, the
slot at the descriptor holds the new connection and lookup with its
descriptor and timestamp finds it. -/
theorem sync_add_connection_i_in_range_facts {s : work_service_t}
    {conn_ptr_ : connection_t}
    (hstop : s.is_recv_stop_signal = false)
    (hb : conn_ptr_.native_socket < s.m_conn_vct.length) :
    (sync_add_connection_i s conn_ptr_).2 = .ok 0
      ∧ (sync_add_connection_i s conn_ptr_).1.m_conn_vct
          = s.m_conn_vct.set conn_ptr_.native_socket (some conn_ptr_)
      ∧ (sync_add_connection_i s conn_ptr_).1.is_recv_stop_signal = false
      ∧ (sync_add_connection_i s conn_ptr_).1.m_conn_vct[conn_ptr_.native_socket]?
          = some (some conn_ptr_) := by
  rw [sync_add_connection_i_in_range hstop hb]
  obtain ⟨h1, h2, h3, -⟩ := sync_add_connection_i_store_in_range (s := s) hb
  refine ⟨h1, h2, h3.trans hstop, ?_⟩
  rw [h2]
  simp [List.getElem?_set, hb]

/-- Claim C6: on a service with a stop request, `sync_add_connection_i`
returns -1, leaves the table unchanged, deletes no connection, registers no
I/O event, and every lookup answers as it did before. -/
theorem sync_add_connection_i_after_stop (s : work_service_t) (conn_ptr_ : connection_t)
    (hstop : s.is_recv_stop_signal = true) :
    (sync_add_connection_i s conn_ptr_).2 = .ok (-1)
      ∧ (sync_add_connection_i s conn_ptr_).1.m_conn_vct = s.m_conn_vct
      ∧ destroyed (sync_add_connection_i s conn_ptr_).1 = destroyed s
      ∧ io_events (sync_add_connection_i s conn_ptr_).1 = io_events s
      ∧ ∀ conn_id_ : conn_id_t,
          (get_conn (sync_add_connection_i s conn_ptr_).1 conn_id_).2
            = (get_conn s conn_id_).2 := by
  obtain ⟨msg, hadd⟩ := sync_add_connection_i_stopped conn_ptr_ hstop
  rw [hadd]
  refine ⟨rfl, rfl, destroyed_emit_LOGWARN s msg, io_events_emit_LOGWARN s msg, ?_⟩
  intro conn_id_
  rw [get_conn_result, get_conn_result]
  rfl

/-- Claim C7, as the code behaves: on a service without stop request, an
insertion whose descriptor `d` is not below the table size resizes the
table to exactly `d` elements and then indexes it at `d`, one past the
end.  The size is not at least `d + 1` and no slot at index `d` exists. -/
theorem sync_add_connection_i_grow_off_by_one (s : work_service_t)
    (conn_ptr_ : connection_t)
    (hstop : s.is_recv_stop_signal = false)
    (hb : conn_ptr_.native_socket ≥ s.m_conn_vct.length) :
    (sync_add_connection_i s conn_ptr_).2
        = .error (.out_of_range conn_ptr_.native_socket conn_ptr_.native_socket)
      ∧ (sync_add_connection_i s conn_ptr_).1.m_conn_vct.length = conn_ptr_.native_socket
      ∧ ¬ (conn_ptr_.native_socket + 1
          ≤ (sync_add_connection_i s conn_ptr_).1.m_conn_vct.length)
      ∧ (sync_add_connection_i s conn_ptr_).1.m_conn_vct[conn_ptr_.native_socket]? = none := by
  rw [sync_add_connection_i_grow hstop hb]
  have hlen := vector_resize_length_of_le s.m_conn_vct conn_ptr_.native_socket hb
  refine ⟨rfl, hlen, ?_, ?_⟩
  · show ¬ (conn_ptr_.native_socket + 1
      ≤ (vector_resize s.m_conn_vct conn_ptr_.native_socket).length)
    rw [hlen]
    omega
  · exact List.getElem?_eq_none (Nat.le_of_eq hlen)

/-- Claim C9: whatever the state and the connection, after
`sync_add_connection_i` (refused, stored, or stopped at the access that
follows the resize) every slot that existed, other than the one at the
connection's descriptor, is what it was, and an index other than the
descriptor holds a connection afterwards exactly when it held that same
connection before. -/
theorem sync_add_connection_i_frame (s : work_service_t) (conn_ptr_ : connection_t)
    (i : Nat) (hi : i ≠ conn_ptr_.native_socket) :
    (i < s.m_conn_vct.length →
        (sync_add_connection_i s conn_ptr_).1.m_conn_vct[i]? = s.m_conn_vct[i]?)
      ∧ ∀ x : connection_t,
          (sync_add_connection_i s conn_ptr_).1.m_conn_vct[i]? = some (some x)
            ↔ s.m_conn_vct[i]? = some (some x) := by
  cases hstop : s.is_recv_stop_signal with
  | true =>
    obtain ⟨msg, hadd⟩ := sync_add_connection_i_stopped conn_ptr_ hstop
    rw [hadd]
    exact ⟨fun _ => rfl, fun _ => Iff.rfl⟩
  | false =>
    by_cases hb : conn_ptr_.native_socket < s.m_conn_vct.length
    · have hv := (sync_add_connection_i_in_range_facts hstop hb).2.1
      have hslot : (sync_add_connection_i s conn_ptr_).1.m_conn_vct[i]? = s.m_conn_vct[i]? := by
        rw [hv]
        simp [List.getElem?_set, Ne.symm hi]
      exact ⟨fun _ => hslot, fun x => by rw [hslot]⟩
    · have hge : conn_ptr_.native_socket ≥ s.m_conn_vct.length := Nat.le_of_not_lt hb
      rw [sync_add_connection_i_grow hstop hge]
      have hold : i < s.m_conn_vct.length →
          (vector_resize s.m_conn_vct conn_ptr_.native_socket)[i]? = s.m_conn_vct[i]? :=
        fun hlt => vector_resize_getElem?_of_lt _ _ _ hge hlt
      refine ⟨hold, fun x => ?_⟩
      by_cases hlt : i < s.m_conn_vct.length
      · show (vector_resize s.m_conn_vct conn_ptr_.native_socket)[i]? = some (some x) ↔ _
        rw [hold hlt]
      · have hile : s.m_conn_vct.length ≤ i := Nat.le_of_not_lt hlt
        constructor
        · intro hx
          exact absurd hx (vector_resize_getElem?_of_ge _ _ _ hge hile x)
        · intro hx
          rw [List.getElem?_eq_none hile] at hx
          cases hx

/-- Claim C10: the table size after an insertion, a removal, a lookup or a
close_all is at least the size before it; the same holds for any sequence
of these operations from any state, and from the constructor's table of
`n` slots the size after a longer run is at least the size after any of
its prefixes, which is at least `n`. -/
theorem capacity_never_decreases :
    (∀ (s : work_service_t) (conn_ptr_ : connection_t),
        s.m_conn_vct.length ≤ (sync_add_connection_i s conn_ptr_).1.m_conn_vct.length)
      ∧ (∀ (s : work_service_t) (conn_id_ : conn_id_t),
        s.m_conn_vct.length ≤ (sync_del_connection_i s conn_id_).1.m_conn_vct.length)
      ∧ (∀ (s : work_service_t) (conn_id_ : conn_id_t),
        s.m_conn_vct.length ≤ (get_conn s conn_id_).1.m_conn_vct.length)
      ∧ (∀ s : work_service_t,
        s.m_conn_vct.length ≤ (sync_close_all_conn_i s).1.m_conn_vct.length)
      ∧ (∀ (s : work_service_t) (ops : List op_t),
        s.m_conn_vct.length ≤ (run s ops).1.m_conn_vct.length)
      ∧ (∀ (n : Nat) (ops1 ops2 : List op_t),
        n = (work_service_t.ctor n).m_conn_vct.length
          ∧ n ≤ (run (work_service_t.ctor n) ops1).1.m_conn_vct.length
          ∧ (run (work_service_t.ctor n) ops1).1.m_conn_vct.length
              ≤ (run (work_service_t.ctor n) (ops1 ++ ops2)).1.m_conn_vct.length) := by
  refine ⟨sync_add_connection_i_length_le, ?_, ?_, ?_, fun s ops => run_length_le ops s, ?_⟩
  · intro s conn_id_
    rw [sync_del_connection_i_length]
  · intro s conn_id_
    rw [get_conn_vct]
  · intro s
    show s.m_conn_vct.length ≤ (sync_close_all_conn_i_loop s s.m_conn_vct).m_conn_vct.length
    rw [sync_close_all_conn_i_loop_vct]
  · intro n ops1 ops2
    have hn : (work_service_t.ctor n).m_conn_vct.length = n := by
      show (vector_resize [] n).length = n
      exact vector_resize_length_of_le [] n (Nat.zero_le n)
    refine ⟨hn.symm, ?_, ?_⟩
    · have := run_length_le ops1 (work_service_t.ctor n)
      rw [hn] at this
      exact this
    · rw [run_append]
      rcases hrun : run (work_service_t.ctor n) ops1 with ⟨s1, f⟩
      cases f with
      | none => exact run_length_le ops2 s1
      | some f => exact Nat.le_refl _

/-! ## The theorems above at concrete inputs -/

/-- Claim C3 on a table whose slot 3 holds a connection created at (10, 0),
with a removal for descriptor 3 created at (10, 1). -/
theorem sync_del_connection_i_no_match_witness :
    (sync_del_connection_i
        (mk_service [none, none, none, some (mk_connection 1 3 10 0)] false)
        { socket := 3, timestamp := { tv_sec := 10, tv_usec := 1 } }).2 = -1
      ∧ destroyed (sync_del_connection_i
          (mk_service [none, none, none, some (mk_connection 1 3 10 0)] false)
          { socket := 3, timestamp := { tv_sec := 10, tv_usec := 1 } }).1 = []
      ∧ (sync_del_connection_i
          (mk_service [none, none, none, some (mk_connection 1 3 10 0)] false)
          { socket := 3, timestamp := { tv_sec := 10, tv_usec := 1 } }).1.m_conn_vct
          = [none, none, none, some (mk_connection 1 3 10 0)] :=
  sync_del_connection_i_no_match
    (mk_service [none, none, none, some (mk_connection 1 3 10 0)] false)
    { socket := 3, timestamp := { tv_sec := 10, tv_usec := 1 } }
    (Or.inr (Or.inr ⟨mk_connection 1 3 10 0, rfl, Or.inr (by decide)⟩))

/-- Claim C4 on a table whose slot 3 holds a connection created at (10, 0),
with a removal for exactly that identity. -/
theorem sync_del_connection_i_match_witness :
    (sync_del_connection_i
        (mk_service [none, none, none, some (mk_connection 1 3 10 0)] false)
        { socket := 3, timestamp := { tv_sec := 10, tv_usec := 0 } }).2 = 0
      ∧ destroyed (sync_del_connection_i
          (mk_service [none, none, none, some (mk_connection 1 3 10 0)] false)
          { socket := 3, timestamp := { tv_sec := 10, tv_usec := 0 } }).1
          = [mk_connection 1 3 10 0]
      ∧ (get_conn (sync_del_connection_i
          (mk_service [none, none, none, some (mk_connection 1 3 10 0)] false)
          { socket := 3, timestamp := { tv_sec := 10, tv_usec := 0 } }).1
          { socket := 3, timestamp := { tv_sec := 10, tv_usec := 0 } }).2 = none :=
  have h := sync_del_connection_i_match
    (mk_service [none, none, none, some (mk_connection 1 3 10 0)] false)
    { socket := 3, timestamp := { tv_sec := 10, tv_usec := 0 } }
    (mk_connection 1 3 10 0) (by decide) rfl rfl rfl
  ⟨h.1, h.2.1, h.2.2.2.2.2⟩

/-- The scenario of claim C5: descriptor 3 created at (10, 0) is added to
the constructor's table of 8 slots and removed twice. -/
theorem sync_del_connection_i_twice_witness :
    (sync_del_connection_i
        (sync_del_connection_i
          (sync_add_connection_i (work_service_t.ctor 8) (mk_connection 1 3 10 0)).1
          { socket := 3, timestamp := { tv_sec := 10, tv_usec := 0 } }).1
        { socket := 3, timestamp := { tv_sec := 10, tv_usec := 0 } }).2 = -1
      ∧ destroyed (sync_del_connection_i
          (sync_del_connection_i
            (sync_add_connection_i (work_service_t.ctor 8) (mk_connection 1 3 10 0)).1
            { socket := 3, timestamp := { tv_sec := 10, tv_usec := 0 } }).1
          { socket := 3, timestamp := { tv_sec := 10, tv_usec := 0 } }).1
          = [mk_connection 1 3 10 0] :=
  have h := sync_del_connection_i_twice
    (sync_add_connection_i (work_service_t.ctor 8) (mk_connection 1 3 10 0)).1
    { socket := 3, timestamp := { tv_sec := 10, tv_usec := 0 } }
  ⟨h.1, (h.2.2.2.2.2.2 (mk_connection 1 3 10 0) ⟨rfl, rfl, rfl⟩).2⟩

/-- The scenario of claim C6: descriptor 9 is inserted into a table of 16
empty slots after the stop request. -/
theorem sync_add_connection_i_after_stop_witness :
    (sync_add_connection_i (mk_service (List.replicate 16 none) true)
        (mk_connection 1 9 20 0)).2 = .ok (-1)
      ∧ (sync_add_connection_i (mk_service (List.replicate 16 none) true)
          (mk_connection 1 9 20 0)).1.m_conn_vct = List.replicate 16 none
      ∧ io_events (sync_add_connection_i (mk_service (List.replicate 16 none) true)
          (mk_connection 1 9 20 0)).1 = [] :=
  have h := sync_add_connection_i_after_stop (mk_service (List.replicate 16 none) true)
    (mk_connection 1 9 20 0) rfl
  ⟨h.1, h.2.1, h.2.2.2.1⟩

/-- The scenario of claim C7 with N = 8: descriptor N + 50 = 58 is inserted
into the constructor's table of 8 slots.  The table ends with 58 slots, not
59, and the access at index 58 is out of range. -/
theorem sync_add_connection_i_grow_off_by_one_witness :
    (sync_add_connection_i (work_service_t.ctor 8) (mk_connection 1 58 20 0)).2
        = .error (.out_of_range 58 58)
      ∧ (sync_add_connection_i (work_service_t.ctor 8)
          (mk_connection 1 58 20 0)).1.m_conn_vct.length = 58
      ∧ (sync_add_connection_i (work_service_t.ctor 8)
          (mk_connection 1 58 20 0)).1.m_conn_vct[58]? = none :=
  have h := sync_add_connection_i_grow_off_by_one (work_service_t.ctor 8)
    (mk_connection 1 58 20 0) rfl (by decide)
  ⟨h.1, h.2.1, h.2.2.2⟩

/-- Claim C9 on a table of 4 slots whose slot 2 is occupied, for an
insertion with descriptor 54: slot 2 keeps its connection. -/
theorem sync_add_connection_i_frame_witness :
    (sync_add_connection_i
        (mk_service [none, none, some (mk_connection 1 2 7 0), none] false)
        (mk_connection 2 54 8 0)).1.m_conn_vct[2]?
      = some (some (mk_connection 1 2 7 0)) :=
  (sync_add_connection_i_frame
    (mk_service [none, none, some (mk_connection 1 2 7 0), none] false)
    (mk_connection 2 54 8 0) 2 (by decide)).1 (by decide)

/-! ## Read-only lookup, posting wrappers, shutdown -/

/-- The flags are not written by `get_conn`. -/
theorem get_conn_flags (s : work_service_t) (conn_id_ : conn_id_t) :
    (get_conn s conn_id_).1.is_recv_stop_signal = s.is_recv_stop_signal
      ∧ (get_conn s conn_id_).1.m_enable_conn_heart_beat = s.m_enable_conn_heart_beat := by
  unfold get_conn
  simp only [work_service_t.emit]
  split
  · exact ⟨rfl, rfl⟩
  · split
    · split <;> exact ⟨rfl, rfl⟩
    · exact ⟨rfl, rfl⟩

/-- Claim C19: `get_conn` is read-only.  The table after the call is the
table before it (same size, same slots), so is each flag, whatever the
result; hence a second lookup of the same identity, and a lookup of any
identity after a first lookup, return what they return without it. -/
theorem get_conn_read_only (s : work_service_t) (conn_id_ : conn_id_t) :
    (get_conn s conn_id_).1.m_conn_vct.length = s.m_conn_vct.length
      ∧ (∀ i : Nat, (get_conn s conn_id_).1.m_conn_vct[i]? = s.m_conn_vct[i]?)
      ∧ (get_conn s conn_id_).1.is_recv_stop_signal = s.is_recv_stop_signal
      ∧ (get_conn s conn_id_).1.m_enable_conn_heart_beat = s.m_enable_conn_heart_beat
      ∧ (get_conn (get_conn s conn_id_).1 conn_id_).2 = (get_conn s conn_id_).2
      ∧ (∀ other : conn_id_t,
          (get_conn (get_conn s conn_id_).1 other).2 = (get_conn s other).2) := by
  have hv := get_conn_vct s conn_id_
  have hf := get_conn_flags s conn_id_
  refine ⟨by rw [hv], fun i => by rw [hv], hf.1, hf.2, ?_, ?_⟩
  · rw [get_conn_result, get_conn_result, hv]
  · intro other
    rw [get_conn_result, get_conn_result, hv]

/-- Claim C17: `conn_timedout_callback` makes exactly one call, an
`async_close` for the timed-out identity with the heartbeat deregistration
argument `false` and the event `EV_TIMEOUT_CLOSED`; the call made does not
depend on the table, and the table and the flags are unchanged. -/
theorem conn_timedout_callback_spec (s : work_service_t) (conn_id_ : conn_id_t) :
    (conn_timedout_callback s conn_id_).trace
        = s.trace ++ [.async_close conn_id_ false (some .EV_TIMEOUT_CLOSED)]
      ∧ (conn_timedout_callback s conn_id_).m_conn_vct = s.m_conn_vct
      ∧ (conn_timedout_callback s conn_id_).is_recv_stop_signal = s.is_recv_stop_signal
      ∧ (conn_timedout_callback s conn_id_).m_enable_conn_heart_beat
          = s.m_enable_conn_heart_beat
      ∧ (∀ v : List conn_ptr_t,
          (conn_timedout_callback { s with m_conn_vct := v } conn_id_).trace
            = (conn_timedout_callback s conn_id_).trace) :=
  ⟨rfl, rfl, rfl, rfl, fun _ => rfl⟩

/-- Claim C14: `async_add_connection` and `async_del_connection` each post
exactly one task, the insertion of the given connection respectively the
removal of the given identity, return 0, and leave the table and the flags
as they were. -/
theorem async_connection_posts_only (s : work_service_t) (conn_ptr_ : connection_t)
    (conn_id_ : conn_id_t) :
    ((async_add_connection s conn_ptr_).1.trace
        = s.trace ++ [.post (.sync_add_connection_i conn_ptr_)]
      ∧ (async_add_connection s conn_ptr_).2 = 0
      ∧ (async_add_connection s conn_ptr_).1.m_conn_vct = s.m_conn_vct
      ∧ (async_add_connection s conn_ptr_).1.is_recv_stop_signal = s.is_recv_stop_signal
      ∧ (async_add_connection s conn_ptr_).1.m_enable_conn_heart_beat
          = s.m_enable_conn_heart_beat)
    ∧ ((async_del_connection s conn_id_).1.trace
        = s.trace ++ [.post (.sync_del_connection_i conn_id_)]
      ∧ (async_del_connection s conn_id_).2 = 0
      ∧ (async_del_connection s conn_id_).1.m_conn_vct = s.m_conn_vct
      ∧ (async_del_connection s conn_id_).1.is_recv_stop_signal = s.is_recv_stop_signal
      ∧ (async_del_connection s conn_id_).1.m_enable_conn_heart_beat
          = s.m_enable_conn_heart_beat) :=
  ⟨⟨rfl, rfl, rfl, rfl, rfl⟩, ⟨rfl, rfl, rfl, rfl, rfl⟩⟩

/-- Claim C13: the calls `stop` makes are, in this order, the post of the
close_all task, the stop of the heartbeat tracker exactly when the
heartbeat flag was set, and the stop of the base task service; afterwards
the heartbeat flag is false, the result is 0, and the table is unchanged. -/
theorem stop_order (s : work_service_t) :
    (stop s).1.trace
        = s.trace ++ [.post .sync_close_all_conn_i]
            ++ (if s.m_enable_conn_heart_beat = true then [.heart_beat_stop] else [])
            ++ [.task_service_stop]
      ∧ (stop s).1.m_enable_conn_heart_beat = false
      ∧ (stop s).2 = 0
      ∧ (stop s).1.m_conn_vct = s.m_conn_vct := by
  unfold stop
  cases hhb : s.m_enable_conn_heart_beat with
  | true => simp [work_service_t.emit, hhb]
  | false => simp [work_service_t.emit, hhb]

theorem sync_close_all_conn_i_loop_trace (l : List conn_ptr_t) (s : work_service_t) :
    (sync_close_all_conn_i_loop s l).trace
      = s.trace ++ l.filterMap close_all_call := by
  induction l generalizing s with
  | nil => simp [sync_close_all_conn_i_loop]
  | cons p rest ih =>
    cases p with
    | none =>
      show (sync_close_all_conn_i_loop s rest).trace = _
      rw [ih]
      simp [close_all_call]
    | some c =>
      show (sync_close_all_conn_i_loop (s.emit _) rest).trace = _
      rw [ih]
      simp [work_service_t.emit, close_all_call]

theorem sync_close_all_conn_i_loop_flags (l : List conn_ptr_t) (s : work_service_t) :
    (sync_close_all_conn_i_loop s l).is_recv_stop_signal = s.is_recv_stop_signal
      ∧ (sync_close_all_conn_i_loop s l).m_enable_conn_heart_beat
          = s.m_enable_conn_heart_beat := by
  induction l generalizing s with
  | nil => exact ⟨rfl, rfl⟩
  | cons p rest ih =>
    cases p with
    | none => exact ih s
    | some c => exact ih (s.emit _)

/-- Claim C12: the calls `sync_close_all_conn_i` makes are, in slot order,
one `close_all_call` per slot: for an occupied slot the `async_close` of
the occupant's `get_conn_id()` with the heartbeat deregistration argument
`false`, for an empty slot none; their number is the number of occupied
slots; the result is 0 and the table (size and slots) and the flags are
unchanged. -/
theorem sync_close_all_conn_i_spec (s : work_service_t) :
    (sync_close_all_conn_i s).1.trace
        = s.trace ++ s.m_conn_vct.filterMap close_all_call
      ∧ (∀ c : connection_t,
          close_all_call (some c) = some (.async_close c.get_conn_id false none))
      ∧ close_all_call none = none
      ∧ (s.m_conn_vct.filterMap close_all_call).length
          = (s.m_conn_vct.filter (fun p => p.isSome)).length
      ∧ (sync_close_all_conn_i s).2 = 0
      ∧ (sync_close_all_conn_i s).1.m_conn_vct = s.m_conn_vct
      ∧ (sync_close_all_conn_i s).1.is_recv_stop_signal = s.is_recv_stop_signal
      ∧ (sync_close_all_conn_i s).1.m_enable_conn_heart_beat
          = s.m_enable_conn_heart_beat := by
  refine ⟨sync_close_all_conn_i_loop_trace s.m_conn_vct s, fun _ => rfl, rfl, ?_, rfl,
    sync_close_all_conn_i_loop_vct s.m_conn_vct s,
    (sync_close_all_conn_i_loop_flags s.m_conn_vct s).1,
    (sync_close_all_conn_i_loop_flags s.m_conn_vct s).2⟩
  generalize s.m_conn_vct = v
  induction v with
  | nil => rfl
  | cons p rest ih =>
    cases p with
    | none => simpa [close_all_call] using ih
    | some c => simpa [close_all_call] using ih

/-! ## Slot conflicts and duplicate insertions -/

/-- What the store at lines 180-206 deletes: the occupant found in the
slot, if there is one. -/
theorem sync_add_connection_i_store_destroyed {s : work_service_t}
    {conn_ptr_ : connection_t} {p : conn_ptr_t}
    (hp : s.m_conn_vct[conn_ptr_.native_socket]? = some p) :
    destroyed (sync_add_connection_i_store s conn_ptr_).1
      = destroyed s ++ p.toList := by
  unfold sync_add_connection_i_store
  dsimp only
  rw [hp]
  cases p with
  | none => simp [destroyed, work_service_t.emit, List.filterMap_append]
  | some old => simp [destroyed, work_service_t.emit, List.filterMap_append]

/-- Claim C11: on a service without stop request, inserting `c` when the
slot at its descriptor holds a different connection `old` returns 0,
deletes `old` and nothing else (so `old` is deleted once more than before
and `c` is not deleted), and leaves `c` in the slot. -/
theorem sync_add_connection_i_conflict (s : work_service_t)
    (conn_ptr_ old : connection_t)
    (hstop : s.is_recv_stop_signal = false)
    (hslot : s.m_conn_vct[conn_ptr_.native_socket]? = some (some old))
    (hne : old ≠ conn_ptr_) :
    (sync_add_connection_i s conn_ptr_).2 = .ok 0
      ∧ destroyed (sync_add_connection_i s conn_ptr_).1 = destroyed s ++ [old]
      ∧ (destroyed (sync_add_connection_i s conn_ptr_).1).count old
          = (destroyed s).count old + 1
      ∧ (destroyed (sync_add_connection_i s conn_ptr_).1).count conn_ptr_
          = (destroyed s).count conn_ptr_
      ∧ (sync_add_connection_i s conn_ptr_).1.m_conn_vct[conn_ptr_.native_socket]?
          = some (some conn_ptr_) := by
  have hb : conn_ptr_.native_socket < s.m_conn_vct.length := by
    by_contra hge
    rw [List.getElem?_eq_none (Nat.le_of_not_lt hge)] at hslot
    cases hslot
  obtain ⟨r, -, -, slot⟩ := sync_add_connection_i_in_range_facts hstop hb
  have hd : destroyed (sync_add_connection_i s conn_ptr_).1 = destroyed s ++ [old] := by
    rw [sync_add_connection_i_in_range hstop hb, sync_add_connection_i_store_destroyed hslot]
    rfl
  refine ⟨r, hd, ?_, ?_, slot⟩
  · rw [hd, List.count_append, List.count_singleton_self]
  · rw [hd, List.count_append, List.count_singleton]
    simp [hne]

/-- Claim C15, as the code behaves: on a service without stop request,
inserting the same connection `c` (descriptor below the table size) a
second time finds `c` in the slot, deletes it, and stores it again.  The
second insertion returns 0 and leaves the table as the first one left it,
but `c` is deleted by it while the slot still holds `c`. -/
theorem sync_add_connection_i_twice_deletes (s : work_service_t)
    (conn_ptr_ : connection_t)
    (hstop : s.is_recv_stop_signal = false)
    (hb : conn_ptr_.native_socket < s.m_conn_vct.length) :
    (sync_add_connection_i (sync_add_connection_i s conn_ptr_).1 conn_ptr_).2 = .ok 0
      ∧ (sync_add_connection_i (sync_add_connection_i s conn_ptr_).1 conn_ptr_).1.m_conn_vct
          = (sync_add_connection_i s conn_ptr_).1.m_conn_vct
      ∧ (sync_add_connection_i (sync_add_connection_i s conn_ptr_).1
            conn_ptr_).1.m_conn_vct[conn_ptr_.native_socket]? = some (some conn_ptr_)
      ∧ destroyed (sync_add_connection_i (sync_add_connection_i s conn_ptr_).1 conn_ptr_).1
          = destroyed (sync_add_connection_i s conn_ptr_).1 ++ [conn_ptr_]
      ∧ conn_ptr_ ∈
          destroyed (sync_add_connection_i (sync_add_connection_i s conn_ptr_).1
            conn_ptr_).1 := by
  obtain ⟨-, v1, stop1, slot1⟩ := sync_add_connection_i_in_range_facts hstop hb
  have hb1 : conn_ptr_.native_socket
      < (sync_add_connection_i s conn_ptr_).1.m_conn_vct.length := by
    rw [v1, List.length_set]
    exact hb
  obtain ⟨r2, v2, -, slot2⟩ := sync_add_connection_i_in_range_facts stop1 hb1
  have hd : destroyed
      (sync_add_connection_i (sync_add_connection_i s conn_ptr_).1 conn_ptr_).1
      = destroyed (sync_add_connection_i s conn_ptr_).1 ++ [conn_ptr_] := by
    rw [sync_add_connection_i_in_range stop1 hb1,
      sync_add_connection_i_store_destroyed slot1]
    rfl
  refine ⟨r2, ?_, slot2, hd, ?_⟩
  · rw [v2, v1]
    simp
  · rw [hd]
    simp

/-- Claim C18, as the code behaves: on a service without stop request the
slot access at lines 180-187 is in range exactly when the descriptor was
already below the table size on entry.  When the descriptor equals or
exceeds that size, the table is resized to the descriptor and the access
is made at an index equal to the size at that moment, not below it. -/
theorem sync_add_connection_i_access (s : work_service_t) (conn_ptr_ : connection_t)
    (hstop : s.is_recv_stop_signal = false) :
    (conn_ptr_.native_socket < s.m_conn_vct.length →
        (sync_add_connection_i s conn_ptr_).2 = .ok 0
          ∧ conn_ptr_.native_socket
              < (sync_add_connection_i s conn_ptr_).1.m_conn_vct.length)
      ∧ (s.m_conn_vct.length ≤ conn_ptr_.native_socket →
        (sync_add_connection_i s conn_ptr_).2
            = .error (.out_of_range conn_ptr_.native_socket
                (sync_add_connection_i s conn_ptr_).1.m_conn_vct.length)
          ∧ ¬ conn_ptr_.native_socket
              < (sync_add_connection_i s conn_ptr_).1.m_conn_vct.length) := by
  constructor
  · intro hb
    obtain ⟨r, v, -, -⟩ := sync_add_connection_i_in_range_facts hstop hb
    refine ⟨r, ?_⟩
    rw [v, List.length_set]
    exact hb
  · intro hge
    rw [sync_add_connection_i_grow hstop hge]
    have hlen := vector_resize_length_of_le s.m_conn_vct conn_ptr_.native_socket hge
    show Except.error (fault_t.out_of_range conn_ptr_.native_socket conn_ptr_.native_socket)
        = Except.error (fault_t.out_of_range conn_ptr_.native_socket
            (vector_resize s.m_conn_vct conn_ptr_.native_socket).length)
      ∧ ¬ conn_ptr_.native_socket
        < (vector_resize s.m_conn_vct conn_ptr_.native_socket).length
    rw [hlen]
    exact ⟨rfl, Nat.lt_irrefl _⟩

/-! ## The table invariant -/

/-- A connection found in a slot after an insertion is the inserted one, at
its descriptor, or was in that slot before. -/
theorem sync_add_connection_i_slot_origin (s : work_service_t) (conn_ptr_ : connection_t)
    (i : Nat) (x : connection_t)
    (hx : (sync_add_connection_i s conn_ptr_).1.m_conn_vct[i]? = some (some x)) :
    (i = conn_ptr_.native_socket ∧ x = conn_ptr_) ∨ s.m_conn_vct[i]? = some (some x) := by
  cases hstop : s.is_recv_stop_signal with
  | true =>
    obtain ⟨msg, hadd⟩ := sync_add_connection_i_stopped conn_ptr_ hstop
    rw [hadd] at hx
    exact Or.inr hx
  | false =>
    by_cases hb : conn_ptr_.native_socket < s.m_conn_vct.length
    · obtain ⟨-, hv, -, slot⟩ := sync_add_connection_i_in_range_facts hstop hb
      by_cases hi : i = conn_ptr_.native_socket
      · left
        subst hi
        rw [slot] at hx
        have hc : conn_ptr_ = x := by simpa using hx
        exact ⟨rfl, hc.symm⟩
      · right
        rw [hv] at hx
        simpa [List.getElem?_set, Ne.symm hi] using hx
    · have hge : conn_ptr_.native_socket ≥ s.m_conn_vct.length := Nat.le_of_not_lt hb
      rw [sync_add_connection_i_grow hstop hge] at hx
      right
      by_cases hlt : i < s.m_conn_vct.length
      · rw [← vector_resize_getElem?_of_lt _ _ _ hge hlt]
        exact hx
      · exact absurd hx
          (vector_resize_getElem?_of_ge _ _ _ hge (Nat.le_of_not_lt hlt) x)

/-- A connection found in a slot after a removal was in that slot before. -/
theorem sync_del_connection_i_slot_origin (s : work_service_t) (conn_id_ : conn_id_t)
    (i : Nat) (x : connection_t)
    (hx : (sync_del_connection_i s conn_id_).1.m_conn_vct[i]? = some (some x)) :
    s.m_conn_vct[i]? = some (some x) := by
  cases hm : matching_occupant s.m_conn_vct conn_id_ with
  | none =>
    obtain ⟨msg, hdel⟩ := sync_del_connection_i_miss hm
    rw [hdel] at hx
    exact hx
  | some c =>
    rw [sync_del_connection_i_hit hm] at hx
    have hx1 : (s.m_conn_vct.set conn_id_.socket none)[i]? = some (some x) := hx
    by_cases hi : conn_id_.socket = i
    · subst hi
      rw [List.getElem?_set] at hx1
      simp only [if_true] at hx1
      split at hx1
      · simp at hx1
      · cases hx1
    · rw [List.getElem?_set] at hx1
      simpa [hi] using hx1

/-- A connection found in a slot after one operation is the connection
that the operation inserted, at its descriptor, or was in that slot
before. -/
theorem step_slot_origin (s : work_service_t) (o : op_t) (i : Nat) (x : connection_t)
    (hx : (step s o).1.m_conn_vct[i]? = some (some x)) :
    (o = .insertion x ∧ i = x.native_socket) ∨ s.m_conn_vct[i]? = some (some x) := by
  cases o with
  | insertion c =>
    rw [step_insertion_fst] at hx
    rcases sync_add_connection_i_slot_origin s c i x hx with ⟨hi, hc⟩ | hold
    · left
      subst hc
      exact ⟨rfl, hi⟩
    · exact Or.inr hold
  | removal conn_id_ =>
    exact Or.inr (sync_del_connection_i_slot_origin s conn_id_ i x hx)
  | lookup conn_id_ =>
    right
    have hx1 : (get_conn s conn_id_).1.m_conn_vct[i]? = some (some x) := hx
    rw [get_conn_vct] at hx1
    exact hx1
  | close_all =>
    right
    have hx1 : (sync_close_all_conn_i_loop s s.m_conn_vct).m_conn_vct[i]?
        = some (some x) := hx
    rw [sync_close_all_conn_i_loop_vct] at hx1
    exact hx1

/-- A connection found in a slot after a run of operations was inserted by
one of them, at its descriptor, or was in that slot before the run. -/
theorem run_slot_origin (ops : List op_t) (s : work_service_t) (i : Nat)
    (x : connection_t)
    (hx : (run s ops).1.m_conn_vct[i]? = some (some x)) :
    (op_t.insertion x ∈ ops ∧ i = x.native_socket) ∨ s.m_conn_vct[i]? = some (some x) := by
  induction ops generalizing s with
  | nil => exact Or.inr hx
  | cons o os ih =>
    rcases hstep : step s o with ⟨s1, f⟩
    have hs1 : (step s o).1 = s1 := by rw [hstep]
    have hfirst : s1.m_conn_vct[i]? = some (some x) →
        (op_t.insertion x ∈ o :: os ∧ i = x.native_socket)
          ∨ s.m_conn_vct[i]? = some (some x) := by
      intro h1
      rw [← hs1] at h1
      rcases step_slot_origin s o i x h1 with ⟨ho, hi⟩ | hold
      · exact Or.inl ⟨by rw [ho]; exact List.mem_cons_self _ _, hi⟩
      · exact Or.inr hold
    cases f with
    | none =>
      rw [run_cons_none os hstep] at hx
      rcases ih s1 hx with ⟨hmem, hi⟩ | h1
      · exact Or.inl ⟨List.mem_cons_of_mem _ hmem, hi⟩
      · exact hfirst h1
    | some f =>
      rw [run_cons_some os hstep] at hx
      exact hfirst hx

theorem ctor_slot_empty (n i : Nat) (x : connection_t) :
    (work_service_t.ctor n).m_conn_vct[i]? ≠ some (some x) :=
  vector_resize_getElem?_of_ge [] n i (Nat.zero_le n) (Nat.zero_le i) x

/-- Claim C16: let every connection that a run of insertions, removals,
lookups and close_all inserts have `native_socket()` equal to the
descriptor of its `get_conn_id()`.  In the state the run reaches from the
constructor's all-empty table, a slot at index `i` that holds a connection
holds one whose identity descriptor is `i`; so two occupied slots whose
occupants have the same identity descriptor are the same slot with the
same occupant. -/
theorem slot_identity_invariant (n : Nat) (ops : List op_t)
    (hops : ∀ c : connection_t, op_t.insertion c ∈ ops →
      c.native_socket = c.get_conn_id.socket) :
    (∀ (i : Nat) (c : connection_t),
        (run (work_service_t.ctor n) ops).1.m_conn_vct[i]? = some (some c) →
          c.get_conn_id.socket = i)
      ∧ (∀ (j k : Nat) (cj ck : connection_t),
        (run (work_service_t.ctor n) ops).1.m_conn_vct[j]? = some (some cj) →
        (run (work_service_t.ctor n) ops).1.m_conn_vct[k]? = some (some ck) →
        cj.get_conn_id.socket = ck.get_conn_id.socket →
          j = k ∧ cj = ck) := by
  have inv : ∀ (i : Nat) (c : connection_t),
      (run (work_service_t.ctor n) ops).1.m_conn_vct[i]? = some (some c) →
        c.get_conn_id.socket = i := by
    intro i c hc
    rcases run_slot_origin ops (work_service_t.ctor n) i c hc with ⟨hmem, hi⟩ | hold
    · rw [hi]
      exact (hops c hmem).symm
    · exact absurd hold (ctor_slot_empty n i c)
  refine ⟨inv, ?_⟩
  intro j k cj ck hj hk hsame
  have hjk : j = k := by
    rw [← inv j cj hj, ← inv k ck hk]
    exact hsame
  subst hjk
  rw [hj] at hk
  have hc : cj = ck := by simpa using hk
  exact ⟨rfl, hc⟩

/-! ## The theorems of the last three sections at concrete inputs -/

/-- Claim C11 on a table of 8 slots whose slot 5 holds a connection created
at (100, 0), for the insertion of another connection with descriptor 5
created at (100, 500). -/
theorem sync_add_connection_i_conflict_witness :
    (sync_add_connection_i
        (mk_service [none, none, none, none, none, some (mk_connection 1 5 100 0),
          none, none] false)
        (mk_connection 2 5 100 500)).2 = .ok 0
      ∧ destroyed (sync_add_connection_i
          (mk_service [none, none, none, none, none, some (mk_connection 1 5 100 0),
            none, none] false)
          (mk_connection 2 5 100 500)).1 = [mk_connection 1 5 100 0]
      ∧ (sync_add_connection_i
          (mk_service [none, none, none, none, none, some (mk_connection 1 5 100 0),
            none, none] false)
          (mk_connection 2 5 100 500)).1.m_conn_vct[5]?
          = some (some (mk_connection 2 5 100 500)) :=
  have h := sync_add_connection_i_conflict
    (mk_service [none, none, none, none, none, some (mk_connection 1 5 100 0),
      none, none] false)
    (mk_connection 2 5 100 500) (mk_connection 1 5 100 0) rfl rfl (by decide)
  ⟨h.1, h.2.1, h.2.2.2.2⟩

/-- Claim C15 on the constructor's table of 8 slots: the connection with
descriptor 5 is inserted twice.  After the second insertion it is in the
list of deleted connections and still in slot 5. -/
theorem sync_add_connection_i_twice_deletes_witness :
    destroyed (sync_add_connection_i
        (sync_add_connection_i (work_service_t.ctor 8) (mk_connection 1 5 100 0)).1
        (mk_connection 1 5 100 0)).1 = [mk_connection 1 5 100 0]
      ∧ (sync_add_connection_i
          (sync_add_connection_i (work_service_t.ctor 8) (mk_connection 1 5 100 0)).1
          (mk_connection 1 5 100 0)).1.m_conn_vct[5]?
          = some (some (mk_connection 1 5 100 0)) :=
  have h := sync_add_connection_i_twice_deletes (work_service_t.ctor 8)
    (mk_connection 1 5 100 0) rfl (by decide)
  ⟨h.2.2.2.1, h.2.2.1⟩

/-- Claim C18 on the constructor's table of 8 slots, for descriptor 8, the
table size itself: the access is made at index 8 of a table of 8 slots. -/
theorem sync_add_connection_i_access_witness :
    (sync_add_connection_i (work_service_t.ctor 8) (mk_connection 1 8 20 0)).2
        = .error (.out_of_range 8 8)
      ∧ ¬ 8 < (sync_add_connection_i (work_service_t.ctor 8)
          (mk_connection 1 8 20 0)).1.m_conn_vct.length :=
  (sync_add_connection_i_access (work_service_t.ctor 8) (mk_connection 1 8 20 0) rfl).2
    (by decide)

/-- Claim C16 on a run from the constructor's table of 8 slots: two
insertions, a removal and a close_all.  Slot 3 holds a connection at the
end and its identity descriptor is 3. -/
theorem slot_identity_invariant_witness :
    (run (work_service_t.ctor 8)
        [.insertion (mk_connection 1 5 100 0), .insertion (mk_connection 2 3 10 0),
          .removal { socket := 5, timestamp := { tv_sec := 100, tv_usec := 0 } },
          .close_all]).1.m_conn_vct[3]? = some (some (mk_connection 2 3 10 0))
      ∧ (mk_connection 2 3 10 0).get_conn_id.socket = 3 :=
  have hslot : (run (work_service_t.ctor 8)
      [.insertion (mk_connection 1 5 100 0), .insertion (mk_connection 2 3 10 0),
        .removal { socket := 5, timestamp := { tv_sec := 100, tv_usec := 0 } },
        .close_all]).1.m_conn_vct[3]? = some (some (mk_connection 2 3 10 0)) := by
    decide
  ⟨hslot,
    (slot_identity_invariant 8
      [.insertion (mk_connection 1 5 100 0), .insertion (mk_connection 2 3 10 0),
        .removal { socket := 5, timestamp := { tv_sec := 100, tv_usec := 0 } },
        .close_all]
      (by
        intro c hc
        simp only [List.mem_cons, op_t.insertion.injEq, reduceCtorEq, List.mem_nil_iff,
          or_false] at hc
        rcases hc with hc | hc <;> (subst hc; rfl))).1 3 (mk_connection 2 3 10 0) hslot⟩

end chaos.network
